import Mathlib

/-!
Verification of the mock-investing backtest core against its natural-language
specification.  The Python modules `models.py`, `exec_engine.py`,
`indicators.py`, `rules.py`, `strategies.py` and the backtest driver loop of
`main.py` are shallowly embedded below: floats become exact rationals (`ℚ`),
timestamps become `Int`, window parameters become `Nat`, and code that can
raise a Python exception is embedded in `Except` (a `ZeroDivisionError` inside
the indicator library is `Except.error ()`, an exception message from the
execution engine is `Except.error msg`).  The single non-rational primitive,
the float square root used by the Bollinger band computation, is threaded as
an explicit function parameter.
-/

namespace models

/-- Embedding of `models.Portfolio` (mutable state is passed explicitly). -/
structure Portfolio where
  cash : ℚ
  asset_qty : ℚ
  last_price : ℚ
  last_trade_ts : Int
deriving DecidableEq, Repr, Inhabited

/-- Embedding of `models.Trade`. -/
structure Trade where
  ts : Int
  side : String
  price : ℚ
  qty : ℚ
  fee : ℚ
  rule_name : String
deriving DecidableEq, Repr, Inhabited

/-- `Portfolio.equity`: `cash + asset_qty * last_price`. -/
def Portfolio.equity (pf : Portfolio) : ℚ :=
  pf.cash + pf.asset_qty * pf.last_price

end models

namespace exec_engine

open models

/-- Embedding of the Python builtin `min` on two floats: the first argument
is returned on ties (equal to Mathlib's `min`, see `py_min_eq_min`). -/
def py_min (a b : ℚ) : ℚ := if a ≤ b then a else b

/-- Embedding of `exec_engine.can_execute`: `now_ts - last_trade_ts >= cooldown_sec * 1000`. -/
def can_execute (now_ts last_trade_ts cooldown_sec : Int) : Bool :=
  let diff_ms := now_ts - last_trade_ts
  decide (diff_ms ≥ cooldown_sec * 1000)

/-- Embedding of `exec_engine.execute_market`.  The Python code mutates `pf`
in place and raises `ValueError` on an unknown side (before any mutation);
here the updated portfolio and the created `Trade` are returned in `Except`.
A BUY at price exactly `0` raises `ZeroDivisionError` in Python (the division
`cash_to_use / price` happens before any portfolio field is written), which is
embedded as a distinct error message. -/
def execute_market (pf : Portfolio) (side : String) (price : ℚ) (now_ts : Int)
    (fee_rate order_cash : ℚ) (rule_name : String) :
    Except String (Portfolio × Trade) :=
  if side = "BUY" then
    let cash_to_use := py_min order_cash pf.cash
    if price = 0 then .error "float division by zero"
    else
      let qty := cash_to_use / price
      let fee := price * qty * fee_rate
      let pf1 : Portfolio :=
        { pf with
          cash := pf.cash - cash_to_use - fee
          asset_qty := pf.asset_qty + qty
          last_price := price
          last_trade_ts := now_ts }
      .ok (pf1, ⟨now_ts, side, price, qty, fee, rule_name⟩)
  else if side = "SELL" then
    let qty := pf.asset_qty
    let cash_gain := price * qty
    let fee := cash_gain * fee_rate
    let pf1 : Portfolio :=
      { pf with
        cash := pf.cash + cash_gain - fee
        asset_qty := 0
        last_price := price
        last_trade_ts := now_ts }
    .ok (pf1, ⟨now_ts, side, price, qty, fee, rule_name⟩)
  else .error "side must be BUY or SELL"

end exec_engine

namespace indicators

/-- Embedding of `indicators.compute_sma`.  `prices[-window:]` for
`window ≥ 1` is the last `window` elements; the division by `window` raises
`ZeroDivisionError` when `window = 0` (reachable because `len(prices) < 0`
is never true). -/
def compute_sma (prices : List ℚ) (window : Nat) : Except Unit (Option ℚ) :=
  if prices.length < window then .ok none
  else if window = 0 then .error ()
  else .ok (some (((prices.drop (prices.length - window)).foldl (fun total p => total + p) 0) / window))

/-- Embedding of `indicators.compute_ema`: seed with the SMA of the first
`window` prices, then the recurrence `ema = price * k + ema * (1 - k)` with
`k = 2 / (window + 1)` over the remaining prices. -/
def compute_ema (prices : List ℚ) (window : Nat) : Except Unit (Option ℚ) :=
  if prices.length < window then .ok none
  else if prices.length = window then compute_sma prices window
  else
    let multiplier : ℚ := 2 / (window + 1)
    match compute_sma (prices.take window) window with
    | .error e => .error e
    | .ok none => .error ()
    | .ok (some seed) =>
        .ok (some ((prices.drop window).foldl
          (fun ema price => price * multiplier + ema * (1 - multiplier)) seed))

/-- Embedding of `indicators.compute_rsi`: gains and absolute losses of the
consecutive deltas, averaged over the trailing `window` deltas. -/
def compute_rsi (prices : List ℚ) (window : Nat) : Except Unit (Option ℚ) :=
  if prices.length < window + 1 then .ok none
  else if window = 0 then .error ()
  else
    let changes := (prices.zip (prices.drop 1)).map (fun pr => pr.2 - pr.1)
    let gains := changes.map (fun c => if c > 0 then c else 0)
    let losses := changes.map (fun c => if c > 0 then 0 else |c|)
    let avg_gain := (gains.drop (gains.length - window)).sum / window
    let avg_loss := (losses.drop (losses.length - window)).sum / window
    if avg_loss = 0 then .ok (some 100)
    else .ok (some (100 - 100 / (1 + avg_gain / avg_loss)))

/-- Result record for `compute_macd` (the Python dict keys `"macd"`,
`"signal"`, `"histogram"`). -/
structure MACDResult where
  macd : ℚ
  signal : ℚ
  histogram : ℚ
deriving DecidableEq, Repr

/-- The loop of `compute_macd` building `macd_values`: for each index `i`,
re-evaluate both EMAs on the prefix `prices[:i+1]` and keep `ema_f - ema_s`
only when `if ema_f and ema_s` holds in Python, i.e. when both values are
present AND nonzero (truthiness, not an `is None` test). -/
def macd_value_list (prices : List ℚ) (fast slow : Nat) : List Nat → Except Unit (List ℚ)
  | [] => .ok []
  | i :: rest =>
    match compute_ema (prices.take (i + 1)) fast with
    | .error e => .error e
    | .ok ema_f =>
      match compute_ema (prices.take (i + 1)) slow with
      | .error e => .error e
      | .ok ema_s =>
        match macd_value_list prices fast slow rest with
        | .error e => .error e
        | .ok tail =>
          match ema_f, ema_s with
          | some f, some s => if f ≠ 0 ∧ s ≠ 0 then .ok ((f - s) :: tail) else .ok tail
          | _, _ => .ok tail

/-- Embedding of `indicators.compute_macd`. -/
def compute_macd (prices : List ℚ) (fast slow signal : Nat) :
    Except Unit (Option MACDResult) :=
  if prices.length < slow + signal then .ok none
  else
    match compute_ema prices fast with
    | .error e => .error e
    | .ok ema_fast =>
      match compute_ema prices slow with
      | .error e => .error e
      | .ok ema_slow =>
        match ema_fast, ema_slow with
        | some ef, some es =>
          let macd_line := ef - es
          match macd_value_list prices fast slow
              ((List.range (prices.length - slow)).map (fun j => slow + j)) with
          | .error e => .error e
          | .ok macd_values =>
            if macd_values.length < signal then .ok none
            else
              match compute_sma macd_values signal with
              | .error e => .error e
              | .ok none => .ok none
              | .ok (some signal_line) =>
                  .ok (some ⟨macd_line, signal_line, macd_line - signal_line⟩)
        | _, _ => .ok none

/-- Result record for `compute_bollinger_bands`. -/
structure BollingerResult where
  upper : ℚ
  middle : ℚ
  lower : ℚ
deriving DecidableEq, Repr

/-- Embedding of `indicators.compute_bollinger_bands`.  The float square root
`variance ** 0.5` is not rational, so it is taken as an explicit parameter
`sqrt_fn`. -/
def compute_bollinger_bands (sqrt_fn : ℚ → ℚ) (prices : List ℚ) (window : Nat)
    (num_std : ℚ) : Except Unit (Option BollingerResult) :=
  if prices.length < window then .ok none
  else
    match compute_sma prices window with
    | .error e => .error e
    | .ok none => .ok none
    | .ok (some middle) =>
      let window_prices := prices.drop (prices.length - window)
      let variance := (window_prices.map (fun p => ((p - middle) ^ 2 : ℚ))).sum / window
      let std_dev := sqrt_fn variance
      let upper := middle + num_std * std_dev
      let lower := middle - num_std * std_dev
      .ok (some ⟨upper, middle, lower⟩)

end indicators

namespace strategies

/-- Embedding of `strategies.SMACrossover.decide` with parameters
`fast`, `slow`: KEEP when either SMA is undefined, otherwise BUY when
`fast_sma > slow_sma`, SELL when `<`, KEEP on a tie. -/
def sma_crossover_decide (prices : List ℚ) (fast slow : Nat) : Except Unit String :=
  match indicators.compute_sma prices fast with
  | .error e => .error e
  | .ok fast_sma =>
    match indicators.compute_sma prices slow with
    | .error e => .error e
    | .ok slow_sma =>
      match fast_sma, slow_sma with
      | some f, some s =>
        if f > s then .ok "BUY" else if f < s then .ok "SELL" else .ok "KEEP"
      | _, _ => .ok "KEEP"

/-- Embedding of `strategies.EMACrossover.decide`. -/
def ema_crossover_decide (prices : List ℚ) (fast slow : Nat) : Except Unit String :=
  match indicators.compute_ema prices fast with
  | .error e => .error e
  | .ok fast_ema =>
    match indicators.compute_ema prices slow with
    | .error e => .error e
    | .ok slow_ema =>
      match fast_ema, slow_ema with
      | some f, some s =>
        if f > s then .ok "BUY" else if f < s then .ok "SELL" else .ok "KEEP"
      | _, _ => .ok "KEEP"

/-- Embedding of `strategies.RSIStrategy.decide`. -/
def rsi_decide (prices : List ℚ) (period : Nat) (oversold overbought : ℚ) :
    Except Unit String :=
  match indicators.compute_rsi prices period with
  | .error e => .error e
  | .ok none => .ok "KEEP"
  | .ok (some rsi) =>
    if rsi < oversold then .ok "BUY"
    else if rsi > overbought then .ok "SELL"
    else .ok "KEEP"

/-- Embedding of `strategies.MACDStrategy.decide`. -/
def macd_decide (prices : List ℚ) (fast slow signal : Nat) : Except Unit String :=
  match indicators.compute_macd prices fast slow signal with
  | .error e => .error e
  | .ok none => .ok "KEEP"
  | .ok (some macd_data) =>
    if macd_data.macd > macd_data.signal then .ok "BUY"
    else if macd_data.macd < macd_data.signal then .ok "SELL"
    else .ok "KEEP"

/-- Embedding of `strategies.BollingerBandsStrategy.decide` (the float square
root is threaded through as `sqrt_fn`). -/
def bollinger_decide (sqrt_fn : ℚ → ℚ) (prices : List ℚ) (period : Nat)
    (num_std : ℚ) : Except Unit String :=
  match indicators.compute_bollinger_bands sqrt_fn prices period num_std with
  | .error e => .error e
  | .ok none => .ok "KEEP"
  | .ok (some bb) =>
    if prices.length = 0 then .ok "KEEP"
    else
      let current_price := prices.getLastD 0
      if current_price < bb.lower then .ok "BUY"
      else if current_price > bb.upper then .ok "SELL"
      else .ok "KEEP"

/-- Embedding of `strategies.MomentumStrategy.decide`:
`momentum = (prices[-1] - prices[-period-1]) / prices[-period-1]`; the
division raises `ZeroDivisionError` when the base price is exactly `0`. -/
def momentum_decide (prices : List ℚ) (period : Nat) (threshold : ℚ) :
    Except Unit String :=
  if prices.length < period + 1 then .ok "KEEP"
  else
    let base := prices.getD (prices.length - (period + 1)) 0
    if base = 0 then .error ()
    else
      let momentum := (prices.getLastD 0 - base) / base
      if momentum > threshold then .ok "BUY"
      else if momentum < -threshold then .ok "SELL"
      else .ok "KEEP"

end strategies

namespace rules

/-- Embedding of `rules.compute_sma` — an independent copy of the SMA code,
line for line the same algorithm as `indicators.compute_sma`. -/
def compute_sma (prices : List ℚ) (window : Nat) : Except Unit (Option ℚ) :=
  if prices.length < window then .ok none
  else if window = 0 then .error ()
  else .ok (some (((prices.drop (prices.length - window)).foldl (fun total p => total + p) 0) / window))

/-- Embedding of `rules.decide_action`: the legacy SMA fast/slow rule. -/
def decide_action (prices : List ℚ) (fast slow : Nat) : Except Unit String :=
  match compute_sma prices fast with
  | .error e => .error e
  | .ok fast_now =>
    match compute_sma prices slow with
    | .error e => .error e
    | .ok slow_now =>
      match fast_now, slow_now with
      | some f, some s =>
        if f > s then .ok "BUY" else if f < s then .ok "SELL" else .ok "KEEP"
      | _, _ => .ok "KEEP"

end rules

namespace main

open models exec_engine

/-- One OHLC bar as consumed by the driver (`df.iloc[idx]['Open']` and
`df.iloc[idx]['Close']`; high/low are unused by the loop). -/
structure Bar where
  open_price : ℚ
  close_price : ℚ
deriving DecidableEq, Repr, Inhabited

/-- Embedding of `market_data.dataframe_to_price_list`: the list of closes. -/
def price_list (bars : List Bar) : List ℚ :=
  bars.map Bar.close_price

/-- The parameters of one `run_backtest` invocation: the selected strategy as
its decision function and display name, plus the fee / cooldown / order-ratio
settings. -/
structure RunConfig where
  decide_fn : List ℚ → String
  strategy_name : String
  fee_rate : ℚ
  cooldown_sec : Int
  order_ratio : ℚ

/-- The mutable state of the backtest loop in `main.run_backtest`:
the portfolio, the run's trade list, the ledger rows appended through
`storage.append_trade`, the equity curve and the diagnostic counters,
plus the pending-signal slot. -/
structure RunState where
  portfolio : Portfolio
  trades : List Trade
  ledger : List Trade
  portfolio_values : List ℚ
  trade_count : Nat
  buy_signals : Nat
  sell_signals : Nat
  blocked_by_cooldown : Nat
  blocked_by_no_asset : Nat
  blocked_by_no_cash : Nat
  pending_signal : Option (String × Nat)
deriving DecidableEq, Repr

/-- Loop step 1: `portfolio.last_price = close_price`;
`portfolio_values.append(portfolio.equity())`. -/
def mark_to_market (bars : List Bar) (idx : Nat) (s : RunState) : RunState :=
  let close_price := (bars.getD idx default).close_price
  let pf := { s.portfolio with last_price := close_price }
  { s with portfolio := pf, portfolio_values := s.portfolio_values ++ [pf.equity] }

/-- Loop step 2: if a pending signal exists, fill it at the current bar's
open adjusted by the fixed 0.1% slippage, with `order_cash = cash * order_ratio`;
on success append the trade to the run's trade list and the ledger; clear the
pending slot unconditionally (the `try/except` around `execute_market`
reports a failure and continues). -/
def resolve_pending (cfg : RunConfig) (bars : List Bar) (idx : Nat)
    (s : RunState) : RunState :=
  match s.pending_signal with
  | none => s
  | some (action, _signal_idx) =>
    let open_price := (bars.getD idx default).open_price
    let slippage_rate : ℚ := 1 / 1000
    let execution_price :=
      if action = "BUY" then open_price * (1 + slippage_rate)
      else open_price * (1 - slippage_rate)
    let order_cash := s.portfolio.cash * cfg.order_ratio
    match execute_market s.portfolio action execution_price idx cfg.fee_rate
        order_cash cfg.strategy_name with
    | .ok (pf2, trade) =>
      { s with
        portfolio := pf2
        trades := s.trades ++ [trade]
        ledger := s.ledger ++ [trade]
        trade_count := s.trade_count + 1
        pending_signal := none }
    | .error _ => { s with pending_signal := none }

/-- The buy/sell signal counters bumped right after a non-KEEP decision. -/
def count_signal (action : String) (s : RunState) : RunState :=
  if action = "BUY" then { s with buy_signals := s.buy_signals + 1 }
  else if action = "SELL" then { s with sell_signals := s.sell_signals + 1 }
  else s

/-- Loop steps 3–7: evaluate the strategy on `prices[:idx+1]`; on a non-KEEP
decision count it, then apply the terminal-bar guard, the cooldown gate and
the position/cash gates; if all pass, store `(action, idx)` in the
pending-signal slot for the next bar. -/
def schedule_signal (cfg : RunConfig) (bars : List Bar) (idx : Nat)
    (s : RunState) : RunState :=
  let price_history := (price_list bars).take (idx + 1)
  let action := cfg.decide_fn price_history
  if action = "KEEP" then s
  else
    let s1 := count_signal action s
    if bars.length - 1 ≤ idx then s1
    else if can_execute idx s1.portfolio.last_trade_ts cfg.cooldown_sec = false then
      { s1 with blocked_by_cooldown := s1.blocked_by_cooldown + 1 }
    else if action = "SELL" ∧ s1.portfolio.asset_qty = 0 then
      { s1 with blocked_by_no_asset := s1.blocked_by_no_asset + 1 }
    else if action = "BUY" ∧ s1.portfolio.cash < 1000 then
      { s1 with blocked_by_no_cash := s1.blocked_by_no_cash + 1 }
    else
      { s1 with pending_signal := some (action, idx) }

/-- One full iteration of the `for idx in range(len(df))` loop. -/
def bar_step (cfg : RunConfig) (bars : List Bar) (idx : Nat) (s : RunState) :
    RunState :=
  schedule_signal cfg bars idx (resolve_pending cfg bars idx (mark_to_market bars idx s))

/-- The loop state before the first bar: a fresh `Portfolio(initial_cash)`
and empty accumulators. -/
def init_state (initial_cash : ℚ) : RunState :=
  { portfolio := { cash := initial_cash, asset_qty := 0, last_price := 0, last_trade_ts := 0 }
    trades := []
    ledger := []
    portfolio_values := []
    trade_count := 0
    buy_signals := 0
    sell_signals := 0
    blocked_by_cooldown := 0
    blocked_by_no_asset := 0
    blocked_by_no_cash := 0
    pending_signal := none }

/-- The loop state after processing bars `0, …, k-1`. -/
def loop_up_to (cfg : RunConfig) (bars : List Bar) (initial_cash : ℚ) :
    Nat → RunState
  | 0 => init_state initial_cash
  | k + 1 => bar_step cfg bars k (loop_up_to cfg bars initial_cash k)

/-- The post-loop forced liquidation of `main.run_backtest`: if any asset is
held at series end, sell everything at the last close (no slippage), charge
the fee, record one trade labeled `"<strategy> (청산)"`. -/
def force_liquidation (cfg : RunConfig) (bars : List Bar) (s : RunState) :
    RunState :=
  if 0 < s.portfolio.asset_qty then
    let prices := price_list bars
    let final_price := prices.getLastD 0
    let sell_value := s.portfolio.asset_qty * final_price
    let sell_fee := sell_value * cfg.fee_rate
    let pf1 := { s.portfolio with cash := s.portfolio.cash + sell_value - sell_fee }
    let final_trade : Trade :=
      { ts := (prices.length : Int) - 1
        side := "SELL"
        price := final_price
        qty := s.portfolio.asset_qty
        fee := sell_fee
        rule_name := cfg.strategy_name ++ " (청산)" }
    { s with
      portfolio := { pf1 with asset_qty := 0 }
      trades := s.trades ++ [final_trade]
      ledger := s.ledger ++ [final_trade] }
  else s

/-- The core of `main.run_backtest`: the full loop followed by the forced
liquidation. -/
def run_backtest (cfg : RunConfig) (bars : List Bar) (initial_cash : ℚ) :
    RunState :=
  force_liquidation cfg bars (loop_up_to cfg bars initial_cash bars.length)

/-- The loop state at series end, before the forced liquidation. -/
def final_state (cfg : RunConfig) (bars : List Bar) (initial_cash : ℚ) :
    RunState :=
  loop_up_to cfg bars initial_cash bars.length

end main

/-- Concrete fixture for witnesses: a strategy that always answers BUY, with
fee rate 0, cooldown 0 and order ratio 1. -/
def cfg_buy : main.RunConfig := ⟨fun _ => "BUY", "s", 0, 0, 1⟩

/-- Concrete fixture for witnesses: a strategy that always answers KEEP. -/
def cfg_keep : main.RunConfig := ⟨fun _ => "KEEP", "s", 0, 0, 1⟩

/-- Concrete fixture for witnesses: three flat bars at price 1000. -/
def bars3 : List main.Bar := [⟨1000, 1000⟩, ⟨1000, 1000⟩, ⟨1000, 1000⟩]

deriving instance DecidableEq for Except

section exec_engine_lemmas

open models exec_engine

lemma py_min_eq_min (a b : ℚ) : py_min a b = min a b := by
  simp [py_min, min_def]

lemma execute_market_buy_eq (pf : Portfolio) (price : ℚ) (now_ts : Int)
    (fee_rate order_cash : ℚ) (rule_name : String) (h : price ≠ 0) :
    execute_market pf "BUY" price now_ts fee_rate order_cash rule_name =
      .ok ({ pf with
              cash := pf.cash - exec_engine.py_min order_cash pf.cash
                        - price * (exec_engine.py_min order_cash pf.cash / price) * fee_rate
              asset_qty := pf.asset_qty + exec_engine.py_min order_cash pf.cash / price
              last_price := price
              last_trade_ts := now_ts },
           ⟨now_ts, "BUY", price, exec_engine.py_min order_cash pf.cash / price,
            price * (exec_engine.py_min order_cash pf.cash / price) * fee_rate, rule_name⟩) := by
  simp [execute_market, h]

lemma execute_market_sell_eq (pf : Portfolio) (price : ℚ) (now_ts : Int)
    (fee_rate order_cash : ℚ) (rule_name : String) :
    execute_market pf "SELL" price now_ts fee_rate order_cash rule_name =
      .ok ({ pf with
              cash := pf.cash + price * pf.asset_qty - price * pf.asset_qty * fee_rate
              asset_qty := 0
              last_price := price
              last_trade_ts := now_ts },
           ⟨now_ts, "SELL", price, pf.asset_qty,
            price * pf.asset_qty * fee_rate, rule_name⟩) := by
  simp [execute_market]

lemma execute_market_invalid_eq (pf : Portfolio) (side : String) (price : ℚ)
    (now_ts : Int) (fee_rate order_cash : ℚ) (rule_name : String)
    (h1 : side ≠ "BUY") (h2 : side ≠ "SELL") :
    execute_market pf side price now_ts fee_rate order_cash rule_name =
      .error "side must be BUY or SELL" := by
  simp [execute_market, h1, h2]

end exec_engine_lemmas

section claim_theorems_exec

open models exec_engine

/-- Claim C1: `execute_market` satisfies its specified postcondition for every
portfolio, positive price, fee rate and order cash.  On BUY it uses
`cash_to_use = min(order_cash, pf.cash)`, buys `qty = cash_to_use / price`,
charges `fee = price * qty * fee_rate`, decreases cash by exactly
`cash_to_use + fee` and increases `asset_qty` by exactly `qty`; on SELL it
liquidates the entire position, charges `fee = price * qty * fee_rate`,
increases cash by exactly `price * qty - fee` and zeroes `asset_qty`; in both
cases it sets `last_price = price`, `last_trade_ts = now_ts` and returns the
Trade `(now_ts, side, price, qty, fee, rule_name)`. -/
theorem execute_market_postcondition (pf : Portfolio) (price : ℚ) (now_ts : Int)
    (fee_rate order_cash : ℚ) (rule_name : String) (hp : 0 < price) :
    (∃ pf2 tr, execute_market pf "BUY" price now_ts fee_rate order_cash rule_name
        = .ok (pf2, tr) ∧
      tr.ts = now_ts ∧ tr.side = "BUY" ∧ tr.price = price ∧
      tr.qty = exec_engine.py_min order_cash pf.cash / price ∧
      tr.fee = price * tr.qty * fee_rate ∧ tr.rule_name = rule_name ∧
      pf2.cash = pf.cash - (exec_engine.py_min order_cash pf.cash + tr.fee) ∧
      pf2.asset_qty = pf.asset_qty + tr.qty ∧
      pf2.last_price = price ∧ pf2.last_trade_ts = now_ts) ∧
    (∃ pf2 tr, execute_market pf "SELL" price now_ts fee_rate order_cash rule_name
        = .ok (pf2, tr) ∧
      tr.ts = now_ts ∧ tr.side = "SELL" ∧ tr.price = price ∧
      tr.qty = pf.asset_qty ∧
      tr.fee = price * tr.qty * fee_rate ∧ tr.rule_name = rule_name ∧
      pf2.cash = pf.cash + (price * tr.qty - tr.fee) ∧
      pf2.asset_qty = 0 ∧
      pf2.last_price = price ∧ pf2.last_trade_ts = now_ts) := by
  constructor
  · refine ⟨_, _, execute_market_buy_eq pf price now_ts fee_rate order_cash rule_name hp.ne', ?_⟩
    refine ⟨rfl, rfl, rfl, rfl, rfl, rfl, ?_, rfl, rfl, rfl⟩
    ring
  · refine ⟨_, _, execute_market_sell_eq pf price now_ts fee_rate order_cash rule_name, ?_⟩
    refine ⟨rfl, rfl, rfl, rfl, rfl, rfl, ?_, rfl, rfl, rfl⟩
    ring

/-- Witness for C1 at a concrete input. -/
theorem execute_market_postcondition_witness :
    (0 : ℚ) < 2 ∧
    ((∃ pf2 tr, execute_market ⟨100, 5, 0, 0⟩ "BUY" 2 7 (1/10) 40 "r"
        = .ok (pf2, tr) ∧
      tr.ts = 7 ∧ tr.side = "BUY" ∧ tr.price = 2 ∧
      tr.qty = exec_engine.py_min 40 (100:ℚ) / 2 ∧
      tr.fee = 2 * tr.qty * (1/10) ∧ tr.rule_name = "r" ∧
      pf2.cash = 100 - (exec_engine.py_min 40 (100:ℚ) + tr.fee) ∧
      pf2.asset_qty = 5 + tr.qty ∧
      pf2.last_price = 2 ∧ pf2.last_trade_ts = 7) ∧
    (∃ pf2 tr, execute_market ⟨100, 5, 0, 0⟩ "SELL" 2 7 (1/10) 40 "r"
        = .ok (pf2, tr) ∧
      tr.ts = 7 ∧ tr.side = "SELL" ∧ tr.price = 2 ∧
      tr.qty = (5:ℚ) ∧
      tr.fee = 2 * tr.qty * (1/10) ∧ tr.rule_name = "r" ∧
      pf2.cash = 100 + (2 * tr.qty - tr.fee) ∧
      pf2.asset_qty = 0 ∧
      pf2.last_price = 2 ∧ pf2.last_trade_ts = 7)) :=
  ⟨by norm_num,
   execute_market_postcondition ⟨100, 5, 0, 0⟩ 2 7 (1/10) 40 "r" (by norm_num)⟩

/-- Counterexample to claim C2 as stated: starting from the non-negative
portfolio `cash = 100, asset_qty = 0`, a BUY with fee rate `1/10 ∈ [0,1)` and
order cash `100` leaves `cash = -10 < 0` (the fee is charged on top of the
full `cash_to_use = min(order_cash, cash) = cash`). -/
theorem execute_market_buy_cash_negative :
    (0 : ℚ) ≤ 1/10 ∧ (1/10 : ℚ) < 1 ∧ (0 : ℚ) ≤ 100 ∧
    execute_market ⟨100, 0, 0, 0⟩ "BUY" 1 5 (1/10) 100 "r" =
      .ok (⟨-10, 100, 1, 5⟩, ⟨5, "BUY", 1, 100, 10, "r"⟩) ∧
    (-10 : ℚ) < 0 := by
  refine ⟨by norm_num, by norm_num, by norm_num, ?_, by norm_num⟩
  rw [execute_market_buy_eq _ _ _ _ _ _ (by norm_num : (1:ℚ) ≠ 0)]
  norm_num [exec_engine.py_min]

/-- Claim C2 as amended: starting from `cash ≥ 0`, `asset_qty ≥ 0` with fee
rate in `[0,1)` and a positive price, a SELL (full liquidation) always leaves
`cash ≥ 0`; a BUY leaves `cash ≥ 0` provided the cash actually used plus its
fee is covered, i.e. `min(order_cash, cash) * (1 + fee_rate) ≤ cash`; and the
driver's forced liquidation at a non-negative final price leaves `cash ≥ 0`. -/
theorem cash_nonneg_amended (pf : Portfolio) (price : ℚ) (now_ts : Int)
    (fee_rate order_cash : ℚ) (rule_name : String)
    (hcash : 0 ≤ pf.cash) (hqty : 0 ≤ pf.asset_qty)
    (hf0 : 0 ≤ fee_rate) (hf1 : fee_rate < 1) (hp : 0 < price) :
    ((∀ pf2 tr,
        execute_market pf "SELL" price now_ts fee_rate order_cash rule_name
          = .ok (pf2, tr) → 0 ≤ pf2.cash) ∧
     (exec_engine.py_min order_cash pf.cash * (1 + fee_rate) ≤ pf.cash →
      ∀ pf2 tr,
        execute_market pf "BUY" price now_ts fee_rate order_cash rule_name
          = .ok (pf2, tr) → 0 ≤ pf2.cash)) ∧
    (∀ (cfg : main.RunConfig) (bars : List main.Bar) (s : main.RunState),
      0 ≤ s.portfolio.cash → 0 ≤ s.portfolio.asset_qty →
      0 ≤ cfg.fee_rate → cfg.fee_rate < 1 →
      0 ≤ (main.price_list bars).getLastD 0 →
      0 ≤ (main.force_liquidation cfg bars s).portfolio.cash) := by
  constructor
  · constructor
    · intro pf2 tr h
      rw [execute_market_sell_eq] at h
      cases h
      have hpq : 0 ≤ price * pf.asset_qty := mul_nonneg hp.le hqty
      have : 0 ≤ price * pf.asset_qty * (1 - fee_rate) :=
        mul_nonneg hpq (by linarith)
      simp only
      nlinarith
    · intro hcover pf2 tr h
      rw [execute_market_buy_eq pf price now_ts fee_rate order_cash rule_name hp.ne'] at h
      cases h
      simp only
      have hq : price * (exec_engine.py_min order_cash pf.cash / price) = exec_engine.py_min order_cash pf.cash := by
        field_simp
      rw [hq]
      nlinarith [hcover]
  · intro cfg bars s hc hq hf0c hf1c hfp
    unfold main.force_liquidation
    split
    · rename_i hpos
      simp only
      have h1 : 0 ≤ s.portfolio.asset_qty * (main.price_list bars).getLastD 0 :=
        mul_nonneg hq hfp
      nlinarith
    · exact hc

/-- Witness for the amended C2 at concrete inputs. -/
theorem cash_nonneg_amended_witness :
    ((0:ℚ) ≤ 100 ∧ (0:ℚ) ≤ 5 ∧ (0:ℚ) ≤ 1/10 ∧ (1/10:ℚ) < 1 ∧ (0:ℚ) < 2) ∧
    (∀ pf2 tr,
      execute_market ⟨100, 5, 0, 0⟩ "SELL" 2 7 (1/10) 40 "r" = .ok (pf2, tr) →
      0 ≤ pf2.cash) ∧
    (∀ pf2 tr,
      execute_market ⟨100, 5, 0, 0⟩ "BUY" 2 7 (1/10) 40 "r" = .ok (pf2, tr) →
      0 ≤ pf2.cash) := by
  have h := cash_nonneg_amended ⟨100, 5, 0, 0⟩ 2 7 (1/10) 40 "r"
    (by norm_num) (by norm_num) (by norm_num) (by norm_num) (by norm_num)
  exact ⟨⟨by norm_num, by norm_num, by norm_num, by norm_num, by norm_num⟩,
    h.1.1, h.1.2 (by norm_num [exec_engine.py_min])⟩

/-- Claim C3 concerns a unit mismatch in the code: `can_execute` multiplies
the cooldown by 1000 (seconds → milliseconds) while the driver passes plain
bar indices as timestamps and documents the cooldown in days/bars
("1일 = 하루에 최대 1번 거래").  One bar after a fill (`now_ts = 1`,
`last_trade_ts = 0`) a 1-unit cooldown still blocks execution, and only
clears after 1000 bar-index units; the `can_execute(t,t,0)` /
`can_execute(t,t,c>0)` corner cases do hold. -/
theorem can_execute_cooldown_scale_bug :
    can_execute 1 0 1 = false ∧ ((1 : Int) - 0 ≥ 1) ∧
    can_execute 999 0 1 = false ∧ can_execute 1000 0 1 = true ∧
    can_execute 0 0 1 = false ∧ can_execute 0 0 0 = true := by
  decide

/-- Claim C9: `execute_market` fails with the invalid-argument error exactly
when the side is neither `"BUY"` nor `"SELL"` (a BUY at price 0 raises a
different, `ZeroDivisionError`-typed failure), and the failed call is atomic:
in the driver's resolution step an invalid-side fill leaves the portfolio,
the trade list and the ledger unchanged and produces no trade (only the
pending slot is cleared). -/
theorem execute_market_invalid_side (pf : Portfolio) (side : String)
    (price : ℚ) (now_ts : Int) (fee_rate order_cash : ℚ) (rule_name : String) :
    ((side ≠ "BUY" ∧ side ≠ "SELL") ↔
      execute_market pf side price now_ts fee_rate order_cash rule_name
        = .error "side must be BUY or SELL") ∧
    (∀ (cfg : main.RunConfig) (bars : List main.Bar) (idx : Nat)
        (s : main.RunState) (action : String) (T : Nat),
      s.pending_signal = some (action, T) →
      action ≠ "BUY" → action ≠ "SELL" →
      (main.resolve_pending cfg bars idx s).portfolio = s.portfolio ∧
      (main.resolve_pending cfg bars idx s).trades = s.trades ∧
      (main.resolve_pending cfg bars idx s).ledger = s.ledger ∧
      (main.resolve_pending cfg bars idx s).pending_signal = none) := by
  constructor
  · constructor
    · rintro ⟨h1, h2⟩
      exact execute_market_invalid_eq pf side price now_ts fee_rate order_cash rule_name h1 h2
    · intro h
      constructor
      · intro hb
        subst hb
        by_cases hz : price = 0
        · simp [execute_market, hz] at h
        · rw [execute_market_buy_eq pf price now_ts fee_rate order_cash rule_name hz] at h
          cases h
      · intro hs
        subst hs
        rw [execute_market_sell_eq] at h
        cases h
  · intro cfg bars idx s action T hp h1 h2
    unfold main.resolve_pending
    rw [hp]
    simp only
    rw [execute_market_invalid_eq _ _ _ _ _ _ _ h1 h2]
    exact ⟨rfl, rfl, rfl, rfl⟩

/-- Witness for C9 at a concrete invalid side and a concrete resolution
step. -/
theorem execute_market_invalid_side_witness :
    ((("HOLD" : String) ≠ "BUY" ∧ ("HOLD" : String) ≠ "SELL") ↔
      execute_market ⟨100, 0, 0, 0⟩ "HOLD" 1 5 (1/10) 100 "r"
        = .error "side must be BUY or SELL") ∧
    ((main.resolve_pending cfg_buy bars3 1
        ⟨⟨100, 0, 0, 0⟩, [], [], [], 0, 0, 0, 0, 0, 0, some ("HOLD", 0)⟩).portfolio
      = (⟨⟨100, 0, 0, 0⟩, [], [], [], 0, 0, 0, 0, 0, 0,
          some ("HOLD", 0)⟩ : main.RunState).portfolio ∧
     (main.resolve_pending cfg_buy bars3 1
        ⟨⟨100, 0, 0, 0⟩, [], [], [], 0, 0, 0, 0, 0, 0, some ("HOLD", 0)⟩).trades
      = (⟨⟨100, 0, 0, 0⟩, [], [], [], 0, 0, 0, 0, 0, 0,
          some ("HOLD", 0)⟩ : main.RunState).trades ∧
     (main.resolve_pending cfg_buy bars3 1
        ⟨⟨100, 0, 0, 0⟩, [], [], [], 0, 0, 0, 0, 0, 0, some ("HOLD", 0)⟩).ledger
      = (⟨⟨100, 0, 0, 0⟩, [], [], [], 0, 0, 0, 0, 0, 0,
          some ("HOLD", 0)⟩ : main.RunState).ledger ∧
     (main.resolve_pending cfg_buy bars3 1
        ⟨⟨100, 0, 0, 0⟩, [], [], [], 0, 0, 0, 0, 0, 0, some ("HOLD", 0)⟩).pending_signal
      = none) := by
  have h := execute_market_invalid_side ⟨100, 0, 0, 0⟩ "HOLD" 1 5 (1/10) 100 "r"
  exact ⟨h.1,
    h.2 cfg_buy bars3 1
      ⟨⟨100, 0, 0, 0⟩, [], [], [], 0, 0, 0, 0, 0, 0, some ("HOLD", 0)⟩
      "HOLD" 0 rfl (by decide) (by decide)⟩

end claim_theorems_exec

section indicator_lemmas

lemma compute_sma_short {prices : List ℚ} {w : Nat} (h : prices.length < w) :
    indicators.compute_sma prices w = .ok none := by
  simp [indicators.compute_sma, h]

lemma compute_sma_no_error {prices : List ℚ} {w : Nat} (hw : w ≠ 0) :
    ∃ r, indicators.compute_sma prices w = .ok r := by
  unfold indicators.compute_sma
  split_ifs with h1
  · exact ⟨none, rfl⟩
  · exact ⟨_, rfl⟩

lemma compute_sma_isSome {prices : List ℚ} {w : Nat} (hw : w ≠ 0)
    (h : ¬ prices.length < w) :
    ∃ v, indicators.compute_sma prices w = .ok (some v) := by
  unfold indicators.compute_sma
  rw [if_neg h, if_neg hw]
  exact ⟨_, rfl⟩

lemma compute_ema_short {prices : List ℚ} {w : Nat} (h : prices.length < w) :
    indicators.compute_ema prices w = .ok none := by
  unfold indicators.compute_ema
  rw [if_pos h]

lemma compute_ema_no_error {prices : List ℚ} {w : Nat} (hw : w ≠ 0) :
    ∃ r, indicators.compute_ema prices w = .ok r := by
  unfold indicators.compute_ema
  split
  · exact ⟨none, rfl⟩
  · split
    · exact compute_sma_no_error hw
    · rename_i h1 h2
      have htake : ¬ (prices.take w).length < w := by
        rw [List.length_take]
        omega
      obtain ⟨v, hv⟩ := compute_sma_isSome hw htake
      rw [hv]
      exact ⟨_, rfl⟩

end indicator_lemmas

section claim_theorems_indicators

/-- Claim C10: the two independent SMA implementations agree — `rules.compute_sma`
equals `indicators.compute_sma` on every price list and window, and the legacy
`rules.decide_action` returns the same action as `SMACrossover.decide`. -/
theorem sma_rules_indicators_agree :
    (∀ (prices : List ℚ) (window : Nat),
      rules.compute_sma prices window = indicators.compute_sma prices window) ∧
    (∀ (prices : List ℚ) (fast slow : Nat),
      rules.decide_action prices fast slow
        = strategies.sma_crossover_decide prices fast slow) :=
  ⟨fun _ _ => rfl, fun _ _ _ => rfl⟩

/-- Counterexample to claim C7 as stated: with the parameter `fast = 0` for
the SMA crossover (the claim quantifies over any parameters), the one-element
price list — shorter than `max fast slow = 20` — makes `decide` raise
`ZeroDivisionError` (`prices[-0:]` is the whole list and the SMA divides by
the window) instead of returning KEEP. -/
theorem decide_zero_window_cex :
    ([(1:ℚ)].length < max 0 20) ∧
    strategies.sma_crossover_decide [(1:ℚ)] 0 20 = .error () := by
  constructor
  · norm_num
  · simp [strategies.sma_crossover_decide, indicators.compute_sma]

/-- Claim C7 as amended: every strategy variant returns KEEP on any price
sequence shorter than its minimum window — for the SMA and EMA crossovers
provided their window parameters are at least 1 (a zero window makes those
two variants raise `ZeroDivisionError` instead, see the counterexample);
the RSI, MACD, Bollinger and Momentum variants need no such proviso because
their insufficient-history guard fires first. -/
theorem decide_keep_below_min_window (sqrt_fn : ℚ → ℚ) (prices : List ℚ)
    (fast slow period signal : Nat) (oversold overbought num_std threshold : ℚ) :
    (1 ≤ fast → 1 ≤ slow → prices.length < max fast slow →
      strategies.sma_crossover_decide prices fast slow = .ok "KEEP") ∧
    (1 ≤ fast → 1 ≤ slow → prices.length < max fast slow →
      strategies.ema_crossover_decide prices fast slow = .ok "KEEP") ∧
    (prices.length < period + 1 →
      strategies.rsi_decide prices period oversold overbought = .ok "KEEP") ∧
    (prices.length < slow + signal →
      strategies.macd_decide prices fast slow signal = .ok "KEEP") ∧
    (prices.length < period →
      strategies.bollinger_decide sqrt_fn prices period num_std = .ok "KEEP") ∧
    (prices.length < period + 1 →
      strategies.momentum_decide prices period threshold = .ok "KEEP") := by
  refine ⟨?_, ?_, ?_, ?_, ?_, ?_⟩
  · intro hf hs hlen
    unfold strategies.sma_crossover_decide
    rcases lt_max_iff.mp hlen with h | h
    · rw [compute_sma_short h]
      obtain ⟨r, hr⟩ := @compute_sma_no_error prices slow (by omega)
      rw [hr]
    · obtain ⟨r, hr⟩ := @compute_sma_no_error prices fast (by omega)
      rw [hr, compute_sma_short h]
      all_goals rcases r with _ | v <;> rfl
  · intro hf hs hlen
    unfold strategies.ema_crossover_decide
    rcases lt_max_iff.mp hlen with h | h
    · rw [compute_ema_short h]
      obtain ⟨r, hr⟩ := @compute_ema_no_error prices slow (by omega)
      rw [hr]
    · obtain ⟨r, hr⟩ := @compute_ema_no_error prices fast (by omega)
      rw [hr, compute_ema_short h]
      all_goals rcases r with _ | v <;> rfl
  · intro hlen
    simp [strategies.rsi_decide, indicators.compute_rsi, hlen]
  · intro hlen
    simp [strategies.macd_decide, indicators.compute_macd, hlen]
  · intro hlen
    simp [strategies.bollinger_decide, indicators.compute_bollinger_bands, hlen]
  · intro hlen
    simp [strategies.momentum_decide, hlen]

/-- Witness for the amended C7 at concrete inputs. -/
theorem decide_keep_below_min_window_witness :
    strategies.sma_crossover_decide [(1:ℚ)] 1 2 = .ok "KEEP" ∧
    strategies.ema_crossover_decide [(1:ℚ)] 1 2 = .ok "KEEP" ∧
    strategies.rsi_decide [(1:ℚ)] 2 30 70 = .ok "KEEP" ∧
    strategies.macd_decide [(1:ℚ)] 1 2 1 = .ok "KEEP" ∧
    strategies.bollinger_decide id [(1:ℚ)] 2 2 = .ok "KEEP" ∧
    strategies.momentum_decide [(1:ℚ)] 2 (2/100) = .ok "KEEP" := by
  have h := decide_keep_below_min_window id [(1:ℚ)] 1 2 2 1 30 70 2 (2/100)
  exact ⟨h.1 (by norm_num) (by norm_num) (by norm_num),
    h.2.1 (by norm_num) (by norm_num) (by norm_num),
    h.2.2.1 (by norm_num),
    h.2.2.2.1 (by norm_num),
    h.2.2.2.2.1 (by norm_num),
    h.2.2.2.2.2 (by norm_num)⟩

/-- Claim C8 concerns a truthiness slip in `compute_macd`: on the price list
`[0,0,0]` with `fast = 1 < slow = 2`, `signal = 1` and `len = slow + signal`,
every prefix EMA equals exactly `0`, so the Python guard `if ema_f and ema_s`
(truthiness instead of an `is None` test) drops every macd value and the
function returns None even though the claimed definedness condition
`len ≥ slow + signal` holds. -/
theorem compute_macd_zero_ema_dropped :
    (1 < 2 ∧ 1 ≤ 1) ∧
    ¬ (([(0:ℚ), 0, 0]).length < 2 + 1) ∧
    indicators.compute_macd [(0:ℚ), 0, 0] 1 2 1 = .ok none := by
  refine ⟨⟨by norm_num, le_refl 1⟩, by norm_num, ?_⟩
  norm_num [indicators.compute_macd, indicators.compute_ema,
    indicators.compute_sma, indicators.macd_value_list, List.range_succ]

end claim_theorems_indicators

section driver_lemmas

open models exec_engine main

lemma mark_to_market_portfolio (bars : List Bar) (idx : Nat) (s : RunState) :
    (mark_to_market bars idx s).portfolio
      = { s.portfolio with last_price := (bars.getD idx default).close_price } :=
  rfl

lemma mark_to_market_pending (bars : List Bar) (idx : Nat) (s : RunState) :
    (mark_to_market bars idx s).pending_signal = s.pending_signal :=
  rfl

lemma mark_to_market_trades (bars : List Bar) (idx : Nat) (s : RunState) :
    (mark_to_market bars idx s).trades = s.trades :=
  rfl

lemma mark_to_market_ledger (bars : List Bar) (idx : Nat) (s : RunState) :
    (mark_to_market bars idx s).ledger = s.ledger :=
  rfl

lemma resolve_pending_pending_none (cfg : RunConfig) (bars : List Bar)
    (idx : Nat) (s : RunState) :
    (resolve_pending cfg bars idx s).pending_signal = none := by
  unfold main.resolve_pending
  cases h : s.pending_signal with
  | none => exact h
  | some p =>
    obtain ⟨action, si⟩ := p
    split
    · rename_i heq
      cases heq
    · split <;> (dsimp only; split <;> rfl)

lemma count_signal_fields (action : String) (s : RunState) :
    (count_signal action s).portfolio = s.portfolio ∧
    (count_signal action s).trades = s.trades ∧
    (count_signal action s).ledger = s.ledger ∧
    (count_signal action s).pending_signal = s.pending_signal := by
  unfold main.count_signal
  split_ifs <;> exact ⟨rfl, rfl, rfl, rfl⟩

lemma schedule_signal_fields (cfg : RunConfig) (bars : List Bar) (idx : Nat)
    (s : RunState) :
    (schedule_signal cfg bars idx s).portfolio = s.portfolio ∧
    (schedule_signal cfg bars idx s).trades = s.trades ∧
    (schedule_signal cfg bars idx s).ledger = s.ledger := by
  unfold main.schedule_signal main.count_signal
  dsimp only
  split_ifs <;> exact ⟨rfl, rfl, rfl⟩

lemma schedule_signal_pending (cfg : RunConfig) (bars : List Bar) (idx : Nat)
    (s : RunState) :
    (schedule_signal cfg bars idx s).pending_signal = s.pending_signal ∨
    ∃ a, (schedule_signal cfg bars idx s).pending_signal = some (a, idx) ∧
      idx + 1 < bars.length := by
  unfold main.schedule_signal main.count_signal
  dsimp only
  split_ifs <;>
    first
      | exact Or.inl rfl
      | exact Or.inr ⟨_, rfl, by omega⟩

lemma loop_pending_inv (cfg : RunConfig) (bars : List Bar) (cash : ℚ)
    (k : Nat) :
    (loop_up_to cfg bars cash k).pending_signal = none ∨
    ∃ a, (loop_up_to cfg bars cash k).pending_signal = some (a, k - 1) ∧
      1 ≤ k ∧ k < bars.length := by
  cases k with
  | zero => exact Or.inl rfl
  | succ k =>
    unfold main.loop_up_to main.bar_step
    rcases schedule_signal_pending cfg bars k
        (resolve_pending cfg bars k (mark_to_market bars k (loop_up_to cfg bars cash k))) with
      h | ⟨a, h, hlt⟩
    · left
      rw [h, resolve_pending_pending_none]
    · right
      exact ⟨a, by simpa using h, by omega, hlt⟩

lemma resolve_pending_cases (cfg : RunConfig) (bars : List Bar) (idx : Nat)
    (s : RunState) (action : String) (T : Nat)
    (hp : s.pending_signal = some (action, T)) :
    (∃ pf2 trade,
        execute_market s.portfolio action
          (if action = "BUY"
            then (bars.getD idx default).open_price * (1 + 1 / 1000)
            else (bars.getD idx default).open_price * (1 - 1 / 1000))
          (idx : Int) cfg.fee_rate (s.portfolio.cash * cfg.order_ratio)
          cfg.strategy_name
          = .ok (pf2, trade) ∧
        resolve_pending cfg bars idx s =
          { s with
            portfolio := pf2
            trades := s.trades ++ [trade]
            ledger := s.ledger ++ [trade]
            trade_count := s.trade_count + 1
            pending_signal := none }) ∨
    (∃ msg,
        execute_market s.portfolio action
          (if action = "BUY"
            then (bars.getD idx default).open_price * (1 + 1 / 1000)
            else (bars.getD idx default).open_price * (1 - 1 / 1000))
          (idx : Int) cfg.fee_rate (s.portfolio.cash * cfg.order_ratio)
          cfg.strategy_name
          = .error msg ∧
        resolve_pending cfg bars idx s = { s with pending_signal := none }) := by
  unfold main.resolve_pending
  rw [hp]
  dsimp only
  cases hE : execute_market s.portfolio action
      (if action = "BUY"
        then (bars.getD idx default).open_price * (1 + 1 / 1000)
        else (bars.getD idx default).open_price * (1 - 1 / 1000))
      (idx : Int) cfg.fee_rate (s.portfolio.cash * cfg.order_ratio)
      cfg.strategy_name with
  | ok pt =>
    obtain ⟨pf2, trade⟩ := pt
    exact Or.inl ⟨pf2, trade, rfl, rfl⟩
  | error msg =>
    exact Or.inr ⟨msg, rfl, rfl⟩

lemma loop_buy_one : main.loop_up_to cfg_buy bars3 1001000 1 =
    ⟨⟨1001000, 0, 1000, 0⟩, [], [], [1001000], 0, 1, 0, 0, 0, 0, some ("BUY", 0)⟩ := by
  show main.bar_step cfg_buy bars3 0 (main.init_state 1001000) = _
  unfold main.bar_step main.mark_to_market main.resolve_pending main.schedule_signal
    main.count_signal main.init_state
  norm_num [cfg_buy, bars3, main.price_list, models.Portfolio.equity, exec_engine.can_execute]
  simp

lemma loop_buy_two : main.loop_up_to cfg_buy bars3 1001000 2 =
    ⟨⟨0, 1000, 1001, 1⟩, [⟨1, "BUY", 1001, 1000, 0, "s"⟩], [⟨1, "BUY", 1001, 1000, 0, "s"⟩],
     [1001000, 1001000], 1, 2, 0, 0, 0, 1, none⟩ := by
  show main.bar_step cfg_buy bars3 1 (main.loop_up_to cfg_buy bars3 1001000 1) = _
  rw [loop_buy_one]
  unfold main.bar_step main.mark_to_market main.resolve_pending main.schedule_signal
    main.count_signal
  norm_num [cfg_buy, bars3, main.price_list, models.Portfolio.equity, exec_engine.can_execute,
    exec_engine.execute_market, exec_engine.py_min]
  all_goals simp

lemma loop_buy_three : main.loop_up_to cfg_buy bars3 1001000 3 =
    ⟨⟨0, 1000, 1000, 1⟩, [⟨1, "BUY", 1001, 1000, 0, "s"⟩], [⟨1, "BUY", 1001, 1000, 0, "s"⟩],
     [1001000, 1001000, 1000000], 1, 3, 0, 0, 0, 1, none⟩ := by
  show main.bar_step cfg_buy bars3 2 (main.loop_up_to cfg_buy bars3 1001000 2) = _
  rw [loop_buy_two]
  unfold main.bar_step main.mark_to_market main.resolve_pending main.schedule_signal
    main.count_signal
  norm_num [cfg_buy, bars3, main.price_list, models.Portfolio.equity, exec_engine.can_execute]
  all_goals simp

lemma final_state_buy : main.final_state cfg_buy bars3 1001000 =
    ⟨⟨0, 1000, 1000, 1⟩, [⟨1, "BUY", 1001, 1000, 0, "s"⟩], [⟨1, "BUY", 1001, 1000, 0, "s"⟩],
     [1001000, 1001000, 1000000], 1, 3, 0, 0, 0, 1, none⟩ := by
  show main.loop_up_to cfg_buy bars3 1001000 bars3.length = _
  have hlen : bars3.length = 3 := by simp [bars3]
  rw [hlen]
  exact loop_buy_three

lemma loop_keep_three : main.loop_up_to cfg_keep bars3 1001000 3 =
    ⟨⟨1001000, 0, 1000, 0⟩, [], [], [1001000, 1001000, 1001000], 0, 0, 0, 0, 0, 0, none⟩ := by
  show main.bar_step cfg_keep bars3 2 (main.bar_step cfg_keep bars3 1
    (main.bar_step cfg_keep bars3 0 (main.init_state 1001000))) = _
  unfold main.bar_step main.mark_to_market main.resolve_pending main.schedule_signal
    main.count_signal main.init_state
  norm_num [cfg_keep, bars3, main.price_list, models.Portfolio.equity]

lemma final_state_keep : main.final_state cfg_keep bars3 1001000 =
    ⟨⟨1001000, 0, 1000, 0⟩, [], [], [1001000, 1001000, 1001000], 0, 0, 0, 0, 0, 0, none⟩ := by
  show main.loop_up_to cfg_keep bars3 1001000 bars3.length = _
  have hlen : bars3.length = 3 := by simp [bars3]
  rw [hlen]
  exact loop_keep_three

end driver_lemmas

section claim_theorems_driver

open models exec_engine main

/-- Claim C4: at most one pending signal exists at any point of the driver
loop — the resolution step clears the pending slot unconditionally (fill
attempted or not, succeeded or not), and at the start of every loop iteration
the slot holds either nothing or exactly one `(action, signal_bar_index)` pair
whose index is the immediately preceding bar, scheduled strictly before the
last bar. -/
theorem pending_signal_invariant (cfg : RunConfig) (bars : List Bar)
    (initial_cash : ℚ) :
    (∀ (idx : Nat) (s : RunState),
      (resolve_pending cfg bars idx s).pending_signal = none) ∧
    (∀ k, k ≤ bars.length →
      (loop_up_to cfg bars initial_cash k).pending_signal = none ∨
      ∃ a, (loop_up_to cfg bars initial_cash k).pending_signal = some (a, k - 1) ∧
        1 ≤ k ∧ k < bars.length) :=
  ⟨fun idx s => resolve_pending_pending_none cfg bars idx s,
   fun k _ => loop_pending_inv cfg bars initial_cash k⟩

/-- Witness for C4 at a concrete run. -/
theorem pending_signal_invariant_witness :
    (2 ≤ bars3.length) ∧
    ((loop_up_to cfg_buy bars3 1001000 2).pending_signal = none ∨
      ∃ a, (loop_up_to cfg_buy bars3 1001000 2).pending_signal = some (a, 2 - 1) ∧
        1 ≤ 2 ∧ 2 < bars3.length) :=
  ⟨by simp [bars3],
   (pending_signal_invariant cfg_buy bars3 1001000).2 2 (by simp [bars3])⟩

/-- Claim C5: a pending signal from bar `T` is resolved on bar `T + 1` at that
bar's open price with the fixed 0.1% slippage (`open * (1 + 1/1000)` for BUY,
`open * (1 - 1/1000)` for SELL), with order cash `portfolio.cash * order_ratio`
taken from the portfolio at resolution time, and the resulting Trade is
appended both to the run's trade list and to the ledger. -/
theorem pending_resolution_spec (cfg : RunConfig) (bars : List Bar)
    (initial_cash : ℚ) (k : Nat) (action : String) (T : Nat)
    (hk : k < bars.length)
    (hp : (loop_up_to cfg bars initial_cash k).pending_signal = some (action, T))
    (ha : action = "BUY" ∨ action = "SELL")
    (h0 : (bars.getD k default).open_price ≠ 0) :
    k = T + 1 ∧
    ∃ pf2 trade,
      execute_market
        { (loop_up_to cfg bars initial_cash k).portfolio with
            last_price := (bars.getD k default).close_price }
        action
        (if action = "BUY"
          then (bars.getD k default).open_price * (1 + 1 / 1000)
          else (bars.getD k default).open_price * (1 - 1 / 1000))
        (k : Int) cfg.fee_rate
        ((loop_up_to cfg bars initial_cash k).portfolio.cash * cfg.order_ratio)
        cfg.strategy_name = .ok (pf2, trade) ∧
      (loop_up_to cfg bars initial_cash (k + 1)).trades
        = (loop_up_to cfg bars initial_cash k).trades ++ [trade] ∧
      (loop_up_to cfg bars initial_cash (k + 1)).ledger
        = (loop_up_to cfg bars initial_cash k).ledger ++ [trade] := by
  constructor
  · rcases loop_pending_inv cfg bars initial_cash k with h | ⟨a, h, h1, h2⟩
    · rw [h] at hp
      cases hp
    · have h3 := h.symm.trans hp
      injection h3 with h4
      have h5 := congrArg Prod.snd h4
      simp only at h5
      omega
  · have hpm : (mark_to_market bars k (loop_up_to cfg bars initial_cash k)).pending_signal
        = some (action, T) := hp
    rcases resolve_pending_cases cfg bars k
        (mark_to_market bars k (loop_up_to cfg bars initial_cash k)) action T hpm with
      ⟨pf2, trade, hE, hres⟩ | ⟨msg, hE, hres⟩
    · refine ⟨pf2, trade, hE, ?_, ?_⟩
      · have h1 := (schedule_signal_fields cfg bars k
          (resolve_pending cfg bars k
            (mark_to_market bars k (loop_up_to cfg bars initial_cash k)))).2.1
        calc (loop_up_to cfg bars initial_cash (k + 1)).trades
            = (resolve_pending cfg bars k
                (mark_to_market bars k (loop_up_to cfg bars initial_cash k))).trades := h1
          _ = (loop_up_to cfg bars initial_cash k).trades ++ [trade] := by
              rw [hres]
              rfl
      · have h1 := (schedule_signal_fields cfg bars k
          (resolve_pending cfg bars k
            (mark_to_market bars k (loop_up_to cfg bars initial_cash k)))).2.2
        calc (loop_up_to cfg bars initial_cash (k + 1)).ledger
            = (resolve_pending cfg bars k
                (mark_to_market bars k (loop_up_to cfg bars initial_cash k))).ledger := h1
          _ = (loop_up_to cfg bars initial_cash k).ledger ++ [trade] := by
              rw [hres]
              rfl
    · exfalso
      rcases ha with rfl | rfl
      · rw [if_pos rfl] at hE
        rw [execute_market_buy_eq _ _ _ _ _ _
          (mul_ne_zero h0 (by norm_num : (1 + 1 / 1000 : ℚ) ≠ 0))] at hE
        cases hE
      · rw [if_neg (by decide), execute_market_sell_eq] at hE
        cases hE

/-- Witness for C5 at a concrete run: the BUY signal raised on bar 0 is
filled on bar 1. -/
theorem pending_resolution_spec_witness :
    (1 < bars3.length) ∧
    ((loop_up_to cfg_buy bars3 1001000 1).pending_signal = some ("BUY", 0)) ∧
    ((bars3.getD 1 default).open_price ≠ 0) ∧
    (1 = 0 + 1 ∧
      ∃ pf2 trade,
        execute_market
          { (loop_up_to cfg_buy bars3 1001000 1).portfolio with
              last_price := (bars3.getD 1 default).close_price }
          "BUY"
          (if "BUY" = "BUY"
            then (bars3.getD 1 default).open_price * (1 + 1 / 1000)
            else (bars3.getD 1 default).open_price * (1 - 1 / 1000))
          ((1 : Nat) : Int) cfg_buy.fee_rate
          ((loop_up_to cfg_buy bars3 1001000 1).portfolio.cash * cfg_buy.order_ratio)
          cfg_buy.strategy_name = .ok (pf2, trade) ∧
        (loop_up_to cfg_buy bars3 1001000 (1 + 1)).trades
          = (loop_up_to cfg_buy bars3 1001000 1).trades ++ [trade] ∧
        (loop_up_to cfg_buy bars3 1001000 (1 + 1)).ledger
          = (loop_up_to cfg_buy bars3 1001000 1).ledger ++ [trade]) := by
  have hp : (loop_up_to cfg_buy bars3 1001000 1).pending_signal = some ("BUY", 0) := by
    rw [loop_buy_one]
  refine ⟨by simp [bars3], hp, by norm_num [bars3], ?_⟩
  exact pending_resolution_spec cfg_buy bars3 1001000 1 "BUY" 0
    (by simp [bars3]) hp (Or.inl rfl) (by norm_num [bars3])

/-- Claim C6: after the loop, a positive position is force-liquidated in
exactly one synthesized SELL trade at the final close with no slippage, fee
`qty * close * fee_rate`, the liquidation-labeled rule name, cash increased by
`qty * close - fee` and the position zeroed; with no position at series end,
nothing is synthesized. -/
theorem forced_liquidation_spec (cfg : RunConfig) (bars : List Bar)
    (initial_cash : ℚ) :
    (0 < (final_state cfg bars initial_cash).portfolio.asset_qty →
      run_backtest cfg bars initial_cash =
        { final_state cfg bars initial_cash with
            portfolio :=
              { (final_state cfg bars initial_cash).portfolio with
                  cash := (final_state cfg bars initial_cash).portfolio.cash
                    + (final_state cfg bars initial_cash).portfolio.asset_qty
                        * (price_list bars).getLastD 0
                    - (final_state cfg bars initial_cash).portfolio.asset_qty
                        * (price_list bars).getLastD 0 * cfg.fee_rate
                  asset_qty := 0 }
            trades := (final_state cfg bars initial_cash).trades ++
              [⟨((price_list bars).length : Int) - 1, "SELL",
                (price_list bars).getLastD 0,
                (final_state cfg bars initial_cash).portfolio.asset_qty,
                (final_state cfg bars initial_cash).portfolio.asset_qty
                  * (price_list bars).getLastD 0 * cfg.fee_rate,
                cfg.strategy_name ++ " (청산)"⟩]
            ledger := (final_state cfg bars initial_cash).ledger ++
              [⟨((price_list bars).length : Int) - 1, "SELL",
                (price_list bars).getLastD 0,
                (final_state cfg bars initial_cash).portfolio.asset_qty,
                (final_state cfg bars initial_cash).portfolio.asset_qty
                  * (price_list bars).getLastD 0 * cfg.fee_rate,
                cfg.strategy_name ++ " (청산)"⟩] }) ∧
    ((final_state cfg bars initial_cash).portfolio.asset_qty = 0 →
      run_backtest cfg bars initial_cash = final_state cfg bars initial_cash) := by
  constructor
  · intro h
    show force_liquidation cfg bars (final_state cfg bars initial_cash) = _
    unfold main.force_liquidation
    rw [if_pos h]
  · intro h
    show force_liquidation cfg bars (final_state cfg bars initial_cash) = _
    unfold main.force_liquidation
    rw [if_neg (by rw [h]; exact lt_irrefl 0)]

/-- Witness for C6 at two concrete runs: one ending with a held position
(liquidation happens) and one ending flat (no liquidation trade). -/
theorem forced_liquidation_spec_witness :
    (0 < (final_state cfg_buy bars3 1001000).portfolio.asset_qty ∧
      run_backtest cfg_buy bars3 1001000 =
        { final_state cfg_buy bars3 1001000 with
            portfolio :=
              { (final_state cfg_buy bars3 1001000).portfolio with
                  cash := (final_state cfg_buy bars3 1001000).portfolio.cash
                    + (final_state cfg_buy bars3 1001000).portfolio.asset_qty
                        * (price_list bars3).getLastD 0
                    - (final_state cfg_buy bars3 1001000).portfolio.asset_qty
                        * (price_list bars3).getLastD 0 * cfg_buy.fee_rate
                  asset_qty := 0 }
            trades := (final_state cfg_buy bars3 1001000).trades ++
              [⟨((price_list bars3).length : Int) - 1, "SELL",
                (price_list bars3).getLastD 0,
                (final_state cfg_buy bars3 1001000).portfolio.asset_qty,
                (final_state cfg_buy bars3 1001000).portfolio.asset_qty
                  * (price_list bars3).getLastD 0 * cfg_buy.fee_rate,
                cfg_buy.strategy_name ++ " (청산)"⟩]
            ledger := (final_state cfg_buy bars3 1001000).ledger ++
              [⟨((price_list bars3).length : Int) - 1, "SELL",
                (price_list bars3).getLastD 0,
                (final_state cfg_buy bars3 1001000).portfolio.asset_qty,
                (final_state cfg_buy bars3 1001000).portfolio.asset_qty
                  * (price_list bars3).getLastD 0 * cfg_buy.fee_rate,
                cfg_buy.strategy_name ++ " (청산)"⟩] }) ∧
    ((final_state cfg_keep bars3 1001000).portfolio.asset_qty = 0 ∧
      run_backtest cfg_keep bars3 1001000 = final_state cfg_keep bars3 1001000) := by
  have hpos : 0 < (final_state cfg_buy bars3 1001000).portfolio.asset_qty := by
    rw [final_state_buy]
    norm_num
  have hzero : (final_state cfg_keep bars3 1001000).portfolio.asset_qty = 0 := by
    rw [final_state_keep]
  exact ⟨⟨hpos, (forced_liquidation_spec cfg_buy bars3 1001000).1 hpos⟩,
    ⟨hzero, (forced_liquidation_spec cfg_keep bars3 1001000).2 hzero⟩⟩

end claim_theorems_driver
